import Mathlib

/-!
Verification of the CheckMyPaper paper-review application.

The application stores `papers` and `notifications` rows in a Postgres
database guarded by row-level-security (RLS) policies (migration file),
and mutates them from five client handlers:

* `handleUpload`  (LearnerDashboard)  - create a submission,
* `handleAccept`  (TutorDashboard)    - a tutor claims a paper,
* `handleReject`  (TutorDashboard)    - a tutor declines a paper,
* `handleSubmit`  (AnnotationEditor)  - a tutor finalizes a checked paper,
* `markAsRead`    (Navbar)            - mark one notification read.

The embedding models a database state as lists of rows and each handler as
a pure function on that state.  A supabase `update(...).eq(id, v)` call is
modelled by `applyUpdate`: rows pass the ORed USING clauses of the UPDATE
policies to be updatable, and every updated row must pass the ORed
WITH CHECK clauses, otherwise the whole statement raises an error
(modelled as `none`) and nothing is written.  An update that matches zero
rows is not an error.  Inserted notification ids, and the current time,
are passed as parameters (the database generates them).
-/

namespace CheckMyPaper

/-- Role of a profile, from the `profiles.role` CHECK constraint. -/
inductive Role
  | learner
  | tutor
deriving DecidableEq, BEq

/-- The authenticated caller: `auth.uid()` plus the `profiles.role` row
that the RLS policies look up with an EXISTS subquery. -/
structure Actor where
  id : String
  role : Role
deriving DecidableEq

/-- `papers.status` CHECK constraint: pending, accepted, checked, rejected. -/
inductive Status
  | pending
  | accepted
  | checked
  | rejected
deriving DecidableEq, BEq

/-- A row of the `papers` table.  Nullable columns are `Option`;
timestamps are abstract ticks. -/
structure Paper where
  id : String
  learner_id : String
  tutor_id : Option String
  title : String
  answer_sheet_url : String
  question_paper_url : Option String
  checked_sheet_url : Option String
  status : Status
  marks : Option Int
  grade : Option String
  feedback : Option String
  created_at : Nat
  updated_at : Nat
deriving DecidableEq

/-- A row of the `notifications` table. -/
structure Notification where
  id : String
  user_id : String
  paper_id : Option String
  message : String
  is_read : Bool
  created_at : Nat
deriving DecidableEq

/-- The mutable database state: the `papers` and `notifications` tables. -/
structure Db where
  papers : List Paper
  notifications : List Notification
deriving DecidableEq

/-- Observable outcome of a handler call: `ok` when no alert fired,
`guardFail` for the client-side precondition alert in `handleSubmit`,
`dbError` when the update statement raised (RLS WITH CHECK violation). -/
inductive CallResult
  | ok
  | guardFail
  | dbError
deriving DecidableEq

/-- The `EXISTS (SELECT 1 FROM profiles WHERE profiles.id = auth.uid()
AND profiles.role = 'tutor')` subquery used by the tutor policies. -/
def isTutor (a : Actor) : Bool :=
  a.role == Role.tutor

/-- ORed USING clauses of the SELECT policies on `papers`:
"Learners can view own papers" (`learner_id = auth.uid()`) and
"Tutors can view all pending papers", whose USING clause only checks
that the caller is a tutor. -/
def papersSelectRLS (a : Actor) (p : Paper) : Bool :=
  p.learner_id == a.id || isTutor a

/-- ORed USING clauses of the UPDATE policies on `papers`:
"Learners can update own papers" and "Tutors can update assigned papers"
(`tutor_id = auth.uid() OR (tutor_id IS NULL AND status = 'pending' AND
caller is a tutor)`). -/
def papersUpdateUsing (a : Actor) (p : Paper) : Bool :=
  p.learner_id == a.id ||
    (p.tutor_id == some a.id ||
      (p.tutor_id == none && p.status == Status.pending && isTutor a))

/-- ORed WITH CHECK clauses of the UPDATE policies on `papers`, applied to
the new row: `learner_id = auth.uid()` from the learner policy, and
`tutor_id = auth.uid() OR (tutor_id = auth.uid() AND caller is a tutor)`
from the tutor policy (both disjuncts of which need `tutor_id = auth.uid()`,
the second is kept to mirror the SQL). -/
def papersUpdateCheck (a : Actor) (p : Paper) : Bool :=
  p.learner_id == a.id ||
    (p.tutor_id == some a.id || (p.tutor_id == some a.id && isTutor a))

/-- USING clause of "Users can update own notifications":
`user_id = auth.uid()`. -/
def notificationsUpdateUsing (a : Actor) (n : Notification) : Bool :=
  n.user_id == a.id

/-- The row image of `update(f).eq(id, pid)`: rows that match the id
filter and pass a USING clause receive the new column values, other rows
are untouched. -/
def updateRows (a : Actor) (pid : String) (f : Paper → Paper) (ps : List Paper) : List Paper :=
  ps.map fun q => if q.id == pid && papersUpdateUsing a q then f q else q

/-- A supabase `update(f).eq(id, pid)` statement under RLS: if some
matched row would produce a new row failing every WITH CHECK clause, the
statement raises (returns `none`) and no row is written; otherwise all
matched rows are rewritten.  Matching zero rows is a silent success. -/
def applyUpdate (a : Actor) (pid : String) (f : Paper → Paper) (ps : List Paper) :
    Option (List Paper) :=
  if ps.any fun q => q.id == pid && papersUpdateUsing a q && !papersUpdateCheck a (f q) then
    none
  else
    some (updateRows a pid f ps)

/-- Notification text inserted by `handleAccept`. -/
def acceptMessage (title : String) : String :=
  "Your paper \"" ++ title ++ "\" has been accepted by a tutor and is being checked."

/-- Notification text inserted by `handleReject`. -/
def rejectMessage (title : String) : String :=
  "Your paper \"" ++ title ++ "\" was not accepted for checking."

/-- Notification text inserted by `handleSubmit`; the grade and the raw
marks input string are interpolated. -/
def checkedMessage (title grade marksS : String) : String :=
  "Your paper \"" ++ title ++ "\" has been checked! Grade: " ++ grade ++
    ", Marks: " ++ marksS

/-- Column values written by `handleAccept`:
`tutor_id = profile.id, status = 'accepted', updated_at = now`. -/
def acceptFields (a : Actor) (now : Nat) (q : Paper) : Paper :=
  { q with tutor_id := some a.id, status := Status.accepted, updated_at := now }

/-- Column values written by `handleReject`:
`status = 'rejected', updated_at = now` - nothing else is touched. -/
def rejectFields (now : Nat) (q : Paper) : Paper :=
  { q with status := Status.rejected, updated_at := now }

/-- Numeric value of a block of decimal digit characters. -/
def digitsVal (cs : List Char) : Nat :=
  cs.foldl (fun acc c => acc * 10 + (c.toNat - 48)) 0

/-- JavaScript `parseInt` on the strings an `input[type=number]` can hold:
an optional sign followed by digits; `none` models NaN (no leading digit),
which the JSON layer serializes as null. -/
def jsParseInt (s : String) : Option Int :=
  match s.toList with
  | '-' :: rest =>
      let ds := rest.takeWhile Char.isDigit
      if ds.isEmpty then none else some (-(digitsVal ds : Int))
  | '+' :: rest =>
      let ds := rest.takeWhile Char.isDigit
      if ds.isEmpty then none else some (digitsVal ds : Int)
  | l =>
      let ds := l.takeWhile Char.isDigit
      if ds.isEmpty then none else some (digitsVal ds : Int)

/-- Storage path built by `handleSubmit`:
learner_id/checked_{paper.id}_checked_{timestamp}.png. -/
def checkedFilePath (paper : Paper) (ts : Nat) : String :=
  paper.learner_id ++ "/checked_" ++ paper.id ++ "_checked_" ++ toString ts ++ ".png"

/-- Public retrieval locator returned by the storage bucket for a path. -/
def publicUrl (path : String) : String :=
  "/storage/v1/object/public/papers/" ++ path

/-- Column values written by `handleSubmit`: `status = 'checked'`, the
checked-sheet locator, parsed marks, grade, feedback (the raw string,
possibly empty, never null) and `updated_at`. -/
def submitFields (url marksS gradeS fbS : String) (now : Nat) (q : Paper) : Paper :=
  { q with
      status := Status.checked
      checked_sheet_url := some url
      marks := jsParseInt marksS
      grade := some gradeS
      feedback := some fbS
      updated_at := now }

/-- `TutorDashboard.handleAccept`: update the paper row by id (no status
or assignment precondition beyond RLS), then - if the update statement
did not raise - insert one notification for the learner, built from the
paper object held by the caller. -/
def handleAccept (a : Actor) (paper : Paper) (now : Nat) (nid : String) (db : Db) :
    Db × CallResult :=
  match applyUpdate a paper.id (acceptFields a now) db.papers with
  | none => (db, CallResult.dbError)
  | some ps =>
      ({ papers := ps
         notifications := db.notifications ++
           [{ id := nid, user_id := paper.learner_id, paper_id := some paper.id
              message := acceptMessage paper.title, is_read := false, created_at := now }] },
       CallResult.ok)

/-- `TutorDashboard.handleReject`: update `status`/`updated_at` by id,
then - if the update did not raise - insert one notification for the
learner. -/
def handleReject (a : Actor) (paper : Paper) (now : Nat) (nid : String) (db : Db) :
    Db × CallResult :=
  match applyUpdate a paper.id (rejectFields now) db.papers with
  | none => (db, CallResult.dbError)
  | some ps =>
      ({ papers := ps
         notifications := db.notifications ++
           [{ id := nid, user_id := paper.learner_id, paper_id := some paper.id
              message := rejectMessage paper.title, is_read := false, created_at := now }] },
       CallResult.ok)

/-- `AnnotationEditor.handleSubmit` (finalize): alert and stop if marks or
grade is the empty string; otherwise upload the canvas blob, update the
paper row with the checked fields, and - if the update did not raise -
insert one notification for the learner. -/
def handleSubmit (a : Actor) (paper : Paper) (marksS gradeS fbS : String)
    (now : Nat) (nid : String) (db : Db) : Db × CallResult :=
  if marksS = "" ∨ gradeS = "" then
    (db, CallResult.guardFail)
  else
    match applyUpdate a paper.id
        (submitFields (publicUrl (checkedFilePath paper now)) marksS gradeS fbS now)
        db.papers with
    | none => (db, CallResult.dbError)
    | some ps =>
        ({ papers := ps
           notifications := db.notifications ++
             [{ id := nid, user_id := paper.learner_id, paper_id := some paper.id
                message := checkedMessage paper.title gradeS marksS, is_read := false
                created_at := now }] },
         CallResult.ok)

/-- `LearnerDashboard.handleUpload`: insert a new pending paper owned by
the caller (the INSERT policy `learner_id = auth.uid()` holds by
construction); all grading columns default to null. -/
def handleUpload (a : Actor) (pid title answerUrl : String) (questionUrl : Option String)
    (now : Nat) (db : Db) : Db :=
  { db with
      papers := db.papers ++
        [{ id := pid, learner_id := a.id, tutor_id := none, title := title
           answer_sheet_url := answerUrl, question_paper_url := questionUrl
           checked_sheet_url := none, status := Status.pending, marks := none
           grade := none, feedback := none, created_at := now, updated_at := now }] }

/-- `TutorDashboard.loadPapers`: select rows visible under the SELECT
policies that also pass the query filter
`or(tutor_id.eq.{me}, status.eq.pending)`; the created_at ordering is
not modelled. -/
def loadPapers (a : Actor) (db : Db) : List Paper :=
  db.papers.filter fun p =>
    papersSelectRLS a p && (p.tutor_id == some a.id || p.status == Status.pending)

/-- Row image of `Navbar.markAsRead`: set `is_read = true` on the row
matching the id filter and the USING clause of the notifications UPDATE
policy. -/
def markRow (a : Actor) (nid : String) (n : Notification) : Notification :=
  if n.id == nid && notificationsUpdateUsing a n then { n with is_read := true } else n

/-- `Navbar.markAsRead`: `update(is_read = true).eq(id, nid)` under RLS.
The WITH CHECK clause (`user_id = auth.uid()`) holds on every updated row
because `user_id` is unchanged and USING already required it, so the
statement never raises. -/
def markAsRead (a : Actor) (nid : String) (db : Db) : Db :=
  { db with notifications := db.notifications.map (markRow a nid) }

/-- Formalisation of the access rule claimed by the specification for
reviewers, for comparison with the implementation: a reviewer may read a
submission exactly when it is still submitted (pending) or assigned to
that reviewer. -/
def specReviewerCanRead (a : Actor) (p : Paper) : Bool :=
  isTutor a && (p.status == Status.pending || p.tutor_id == some a.id)

/-- A learner. -/
def l1 : Actor := ⟨"l1", Role.learner⟩

/-- A tutor. -/
def t1 : Actor := ⟨"t1", Role.tutor⟩

/-- A second tutor. -/
def t2 : Actor := ⟨"t2", Role.tutor⟩

/-- The paper as created by `handleUpload l1` at time 1. -/
def p1Pending : Paper :=
  { id := "p1", learner_id := "l1", tutor_id := none, title := "Algebra Quiz"
    answer_sheet_url := "sheet.png", question_paper_url := none
    checked_sheet_url := none, status := Status.pending, marks := none
    grade := none, feedback := none, created_at := 1, updated_at := 1 }

/-- The same paper after `handleAccept t1` at time 2. -/
def p1Accepted : Paper :=
  acceptFields t1 2 p1Pending

/-- The same paper after `handleSubmit t1 "85" "A"` at time 3. -/
def p1Checked : Paper :=
  submitFields (publicUrl (checkedFilePath p1Accepted 3)) "85" "A" "good work" 3 p1Accepted

/-- Database holding one paper assigned to tutor t1 in state accepted. -/
def db1 : Db := ⟨[p1Accepted], []⟩

/-- Database holding one finalized (checked) paper assigned to tutor t1. -/
def db2 : Db := ⟨[p1Checked], []⟩

/-- State after the learner uploads the paper at time 1. -/
def dbA : Db := handleUpload l1 "p1" "Algebra Quiz" "sheet.png" none 1 ⟨[], []⟩

/-- State after tutor t1 accepts the paper at time 2. -/
def dbB : Db := (handleAccept t1 p1Pending 2 "n1" dbA).1

/-- State after tutor t1 finalizes the paper with marks 85, grade A at
time 3. -/
def dbC : Db := (handleSubmit t1 p1Accepted "85" "A" "good work" 3 "n2" dbB).1

/-- A notification owned by learner l1, unread. -/
def n0 : Notification :=
  { id := "n0", user_id := "l1", paper_id := some "p1"
    message := acceptMessage "Algebra Quiz", is_read := false, created_at := 2 }

/-- Database holding one unread notification for learner l1. -/
def dbN : Db := ⟨[], [n0]⟩

/-- The accept update never raises: the new row always carries
`tutor_id = auth.uid()`, so the tutor WITH CHECK clause holds on every
updated row. -/
theorem applyUpdate_accept (a : Actor) (pid : String) (now : Nat) (ps : List Paper) :
    applyUpdate a pid (acceptFields a now) ps =
      some (updateRows a pid (acceptFields a now) ps) := by
  unfold applyUpdate
  rw [if_neg]
  intro h
  rw [List.any_eq_true] at h
  obtain ⟨q, hq, hq2⟩ := h
  simp [papersUpdateCheck, acceptFields] at hq2

/-- A non-raising update statement writes exactly the `updateRows` image. -/
theorem applyUpdate_some (a : Actor) (pid : String) (f : Paper → Paper)
    (ps qs : List Paper) (h : applyUpdate a pid f ps = some qs) :
    qs = updateRows a pid f ps := by
  unfold applyUpdate at h
  split at h
  · exact absurd h (by simp)
  · exact (Option.some.inj h).symm

/-- Marking one notification row read is idempotent at the row level. -/
theorem markRow_idem (a : Actor) (nid : String) (n : Notification) :
    markRow a nid (markRow a nid n) = markRow a nid n := by
  unfold markRow
  by_cases h : (n.id == nid && notificationsUpdateUsing a n) = true
  · simp only [h, if_pos]
    have h2 : (({ n with is_read := true } : Notification).id == nid &&
        notificationsUpdateUsing a { n with is_read := true }) = true := h
    simp [h2]
  · simp [h]

/-- C1: the claim about claiming is false of the code.  `handleAccept`
filters its update only by paper id; there is no conditional write on
`tutor_id` being null and no AlreadyAssigned outcome.  Evaluated at a
paper already assigned to tutor t1: a claim by tutor t2 reports success,
changes no paper row (the row policy filters it out) and still inserts a
notification; and a repeated claim by t1 itself on the already finalized
paper is re-applied, forcing the status from checked back to accepted. -/
theorem claim_on_assigned_not_guarded :
    (handleAccept t2 p1Accepted 9 "na" db1).2 = CallResult.ok ∧
    (handleAccept t2 p1Accepted 9 "na" db1).1.papers = db1.papers ∧
    (handleAccept t2 p1Accepted 9 "na" db1).1.notifications.length = 1 ∧
    (handleAccept t1 p1Checked 9 "nb" db2).1.papers =
      [{ p1Checked with tutor_id := some "t1", status := Status.accepted, updated_at := 9 }] := by
  decide

/-- C2: the claimed InvalidTransition guard does not exist.  A decline by
the assigned tutor t1 on a paper already in state accepted - a transition
§4.1 does not define - succeeds: the update applies (the tutor row policy
passes via tutor_id = auth.uid()), the status becomes rejected, and a
notification is inserted, instead of failing with no side effect. -/
theorem decline_on_assigned_succeeds :
    (handleReject t1 p1Accepted 3 "n4" db1).2 = CallResult.ok ∧
    (handleReject t1 p1Accepted 3 "n4" db1).1.papers =
      [{ p1Accepted with status := Status.rejected, updated_at := 3 }] ∧
    (handleReject t1 p1Accepted 3 "n4" db1).1.notifications.length = 1 := by
  decide

/-- C3: the finalized-iff-graded invariant is violated at an observable
point.  Starting from the empty database: upload (time 1), accept by t1
(time 2), finalize by t1 with marks 85 and grade A (time 3), then reject
by t1 (time 4) - which the code permits - leaves a paper in state
rejected whose marks, grade and checked locator are all still set. -/
theorem finalized_iff_graded_is_broken :
    (handleReject t1 p1Checked 4 "n3" dbC).2 = CallResult.ok ∧
    (handleReject t1 p1Checked 4 "n3" dbC).1.papers.map
        (fun p => (p.status, p.marks, p.grade, p.checked_sheet_url.isSome)) =
      [(Status.rejected, some (85 : Int), some "A", true)] := by
  decide

/-- C4: finalize by a non-assigned tutor does not fail with Forbidden.
Evaluated at a paper assigned to t1 and finalized by t2 with valid
inputs: the update matches no row (the row policy filters it out), the
paper is indeed unchanged, but the call reports success and a
notification telling the learner the paper has been checked is inserted
anyway. -/
theorem finalize_by_non_assigned_is_silent :
    (handleSubmit t2 p1Accepted "90" "A" "" 7 "n6" db1).2 = CallResult.ok ∧
    (handleSubmit t2 p1Accepted "90" "A" "" 7 "n6" db1).1.papers = db1.papers ∧
    (handleSubmit t2 p1Accepted "90" "A" "" 7 "n6" db1).1.notifications.length = 1 := by
  decide

/-- C5 counterexample: the claimed score-range validation does not exist.
A finalize call with score -5 - outside 0..max for every configured
maximum - passes the only guard in the code (non-emptiness of marks and
grade), mutates the paper and writes marks = -5. -/
theorem finalize_accepts_out_of_range_score :
    (handleSubmit t1 p1Accepted "-5" "A" "" 7 "n7" db1).2 = CallResult.ok ∧
    (handleSubmit t1 p1Accepted "-5" "A" "" 7 "n7" db1).1.papers.map
        (fun p => (p.status, p.marks)) = [(Status.checked, some (-5 : Int))] := by
  decide

/-- C5 amended: the only input validation finalize performs is presence:
if the marks string or the grade string is empty, the call stops before
any mutation - no upload, no update, no notification - and the database
is returned unchanged.  No range check on the score, no label-set check
in the handler, and no feedback length bound are performed. -/
theorem finalize_validates_presence_only (a : Actor) (paper : Paper)
    (marksS gradeS fbS : String) (now : Nat) (nid : String) (db : Db)
    (h : marksS = "" ∨ gradeS = "") :
    handleSubmit a paper marksS gradeS fbS now nid db = (db, CallResult.guardFail) := by
  unfold handleSubmit
  rw [if_pos h]

/-- Witness for the presence-only validation theorem at empty marks. -/
theorem finalize_validates_presence_only_witness :
    handleSubmit t1 p1Accepted "" "A" "" 7 "n8" db1 = (db1, CallResult.guardFail) :=
  finalize_validates_presence_only t1 p1Accepted "" "A" "" 7 "n8" db1 (Or.inl rfl)

/-- C6: the reviewer-assignment invariant is violated.  After upload,
accept by t1 and then the decline by t1 that the code permits, the paper
is in state rejected while tutor_id is still "t1": `handleReject` never
clears tutor_id, so a declined submission can keep a non-null assigned
reviewer. -/
theorem declined_paper_keeps_reviewer :
    (handleReject t1 p1Accepted 3 "n5" db1).2 = CallResult.ok ∧
    (handleReject t1 p1Accepted 3 "n5" db1).1.papers.map
        (fun p => (p.status, p.tutor_id)) = [(Status.rejected, some "t1")] := by
  decide

/-- C7: each of the three transition handlers inserts exactly one
notification, targeted at the learner that owns the paper, whenever its
update statement does not raise (accept never raises), and inserts none
when it raises or the finalize guard fails; upload inserts no
notification and markAsRead never adds or removes one. -/
theorem each_transition_notifies_requester_once (a : Actor) (paper : Paper)
    (marksS gradeS fbS title aurl pid : String) (qurl : Option String)
    (now : Nat) (nid : String) (db : Db) :
    ((handleAccept a paper now nid db).1.notifications =
       db.notifications ++
         [{ id := nid, user_id := paper.learner_id, paper_id := some paper.id
            message := acceptMessage paper.title, is_read := false, created_at := now }]) ∧
    ((handleReject a paper now nid db).2 = CallResult.ok →
       (handleReject a paper now nid db).1.notifications =
         db.notifications ++
           [{ id := nid, user_id := paper.learner_id, paper_id := some paper.id
              message := rejectMessage paper.title, is_read := false, created_at := now }]) ∧
    ((handleReject a paper now nid db).2 ≠ CallResult.ok →
       (handleReject a paper now nid db).1.notifications = db.notifications) ∧
    ((handleSubmit a paper marksS gradeS fbS now nid db).2 = CallResult.ok →
       (handleSubmit a paper marksS gradeS fbS now nid db).1.notifications =
         db.notifications ++
           [{ id := nid, user_id := paper.learner_id, paper_id := some paper.id
              message := checkedMessage paper.title gradeS marksS, is_read := false
              created_at := now }]) ∧
    ((handleSubmit a paper marksS gradeS fbS now nid db).2 ≠ CallResult.ok →
       (handleSubmit a paper marksS gradeS fbS now nid db).1.notifications =
         db.notifications) ∧
    (handleUpload a pid title aurl qurl now db).notifications = db.notifications ∧
    (markAsRead a nid db).notifications.length = db.notifications.length := by
  refine ⟨?_, ?_, ?_, ?_, ?_, ?_, ?_⟩
  · simp [handleAccept, applyUpdate_accept]
  · cases hu : applyUpdate a paper.id (rejectFields now) db.papers with
    | none => simp [handleReject, hu]
    | some ps => simp [handleReject, hu]
  · cases hu : applyUpdate a paper.id (rejectFields now) db.papers with
    | none => simp [handleReject, hu]
    | some ps => simp [handleReject, hu]
  · by_cases hg : marksS = "" ∨ gradeS = ""
    · simp [handleSubmit, hg]
    · cases hu : applyUpdate a paper.id
          (submitFields (publicUrl (checkedFilePath paper now)) marksS gradeS fbS now)
          db.papers with
      | none => simp [handleSubmit, hg, hu]
      | some ps => simp [handleSubmit, hg, hu]
  · by_cases hg : marksS = "" ∨ gradeS = ""
    · simp [handleSubmit, hg]
    · cases hu : applyUpdate a paper.id
          (submitFields (publicUrl (checkedFilePath paper now)) marksS gradeS fbS now)
          db.papers with
      | none => simp [handleSubmit, hg, hu]
      | some ps => simp [handleSubmit, hg, hu]
  · rfl
  · simp [markAsRead]

/-- Witness for the notification theorem: the decline of the accepted
paper by its assigned tutor inserts exactly the one expected
notification for learner l1. -/
theorem each_transition_notifies_requester_once_witness :
    (handleReject t1 p1Accepted 3 "nw" db1).1.notifications =
      db1.notifications ++
        [{ id := "nw", user_id := p1Accepted.learner_id, paper_id := some p1Accepted.id
           message := rejectMessage p1Accepted.title, is_read := false, created_at := 3 }] :=
  (each_transition_notifies_requester_once t1 p1Accepted "" "" "" "" "" "" none
      3 "nw" db1).2.1 (by decide)

/-- C8: the reviewer read policy is broader than claimed.  The SELECT
policy named "Tutors can view all pending papers" only checks that the
caller is a tutor, so tutor t2 may read a paper assigned to tutor t1,
which the claimed access rule forbids; the dashboard query `loadPapers`
does keep only pending-or-own papers, so the listing itself matches the
claim. -/
theorem tutor_read_policy_ignores_assignment :
    papersSelectRLS t2 p1Accepted = true ∧
    specReviewerCanRead t2 p1Accepted = false ∧
    loadPapers t2 db1 = [] := by
  decide

/-- C9: a successful decline is exactly the `rejectFields` rewrite of the
matched rows: the updated rows get status rejected and the new timestamp
while id, learner, assigned tutor, title, both artifact locators, the
checked locator, marks, grade, feedback and created_at all keep their
previous values - in particular tutor_id is never cleared - and
unmatched rows are untouched. -/
theorem decline_changes_only_status_and_timestamp (a : Actor) (paper : Paper)
    (now : Nat) (nid : String) (db : Db)
    (h : (handleReject a paper now nid db).2 = CallResult.ok) :
    (handleReject a paper now nid db).1.papers =
      updateRows a paper.id (rejectFields now) db.papers ∧
    ∀ q : Paper,
      (rejectFields now q).status = Status.rejected ∧
      (rejectFields now q).updated_at = now ∧
      (rejectFields now q).id = q.id ∧
      (rejectFields now q).learner_id = q.learner_id ∧
      (rejectFields now q).tutor_id = q.tutor_id ∧
      (rejectFields now q).title = q.title ∧
      (rejectFields now q).answer_sheet_url = q.answer_sheet_url ∧
      (rejectFields now q).question_paper_url = q.question_paper_url ∧
      (rejectFields now q).checked_sheet_url = q.checked_sheet_url ∧
      (rejectFields now q).marks = q.marks ∧
      (rejectFields now q).grade = q.grade ∧
      (rejectFields now q).feedback = q.feedback ∧
      (rejectFields now q).created_at = q.created_at := by
  constructor
  · cases hu : applyUpdate a paper.id (rejectFields now) db.papers with
    | none => simp [handleReject, hu] at h
    | some ps =>
        have hps := applyUpdate_some a paper.id (rejectFields now) db.papers ps hu
        simp [handleReject, hu, hps]
  · intro q
    exact ⟨rfl, rfl, rfl, rfl, rfl, rfl, rfl, rfl, rfl, rfl, rfl, rfl, rfl⟩

/-- Witness for the decline frame theorem at the accepted paper: the
decline applies and the rewrite keeps tutor_id. -/
theorem decline_changes_only_status_and_timestamp_witness :
    (handleReject t1 p1Accepted 3 "nv" db1).1.papers =
      updateRows t1 p1Accepted.id (rejectFields 3) db1.papers ∧
    (rejectFields 3 p1Accepted).tutor_id = p1Accepted.tutor_id :=
  ⟨(decline_changes_only_status_and_timestamp t1 p1Accepted 3 "nv" db1 (by decide)).1,
   ((decline_changes_only_status_and_timestamp t1 p1Accepted 3 "nv" db1
       (by decide)).2 p1Accepted).2.2.2.2.1⟩

/-- C10: markAsRead touches only the read flag.  Applying it twice equals
applying it once, the papers table is untouched, each notification row
keeps its id, target, paper reference, message and timestamp, the row
matching the id and owned by the caller gets is_read = true regardless
of its previous value, and an already-read row is left identical. -/
theorem markAsRead_only_sets_read_flag (a : Actor) (nid : String) (db : Db)
    (n : Notification) :
    markAsRead a nid (markAsRead a nid db) = markAsRead a nid db ∧
    (markAsRead a nid db).papers = db.papers ∧
    (markAsRead a nid db).notifications = db.notifications.map (markRow a nid) ∧
    (markRow a nid n).id = n.id ∧
    (markRow a nid n).user_id = n.user_id ∧
    (markRow a nid n).paper_id = n.paper_id ∧
    (markRow a nid n).message = n.message ∧
    (markRow a nid n).created_at = n.created_at ∧
    (n.id = nid → n.user_id = a.id → (markRow a nid n).is_read = true) ∧
    (n.is_read = true → markRow a nid n = n) := by
  refine ⟨?_, rfl, rfl, ?_, ?_, ?_, ?_, ?_, ?_, ?_⟩
  · obtain ⟨ps, ns⟩ := db
    show Db.mk ps ((ns.map (markRow a nid)).map (markRow a nid)) =
      Db.mk ps (ns.map (markRow a nid))
    congr 1
    induction ns with
    | nil => rfl
    | cons x xs ih => simp [ih, markRow_idem]
  · unfold markRow; split <;> rfl
  · unfold markRow; split <;> rfl
  · unfold markRow; split <;> rfl
  · unfold markRow; split <;> rfl
  · unfold markRow; split <;> rfl
  · intro h1 h2
    simp [markRow, notificationsUpdateUsing, h1, h2]
  · intro hr
    unfold markRow
    split
    · cases n
      simp_all
    · rfl

/-- Witness for the markAsRead theorem at learner l1's unread
notification: the flag is set and a second application changes nothing. -/
theorem markAsRead_only_sets_read_flag_witness :
    (markRow l1 "n0" n0).is_read = true ∧
    markAsRead l1 "n0" (markAsRead l1 "n0" dbN) = markAsRead l1 "n0" dbN :=
  ⟨(markAsRead_only_sets_read_flag l1 "n0" dbN n0).2.2.2.2.2.2.2.2.1 rfl rfl,
   (markAsRead_only_sets_read_flag l1 "n0" dbN n0).1⟩

end CheckMyPaper
